import Mathlib

/-!
Verification of the gcf-thumb-handler request-parameter derivation and
thumbnail-generation orchestration logic (src/main.go, the feature-complete
image+video variant).

Embedding notes:
* Strings are modelled as `List Char`.  The parser operates on the decoded
  request path (Go's `u.Path` after `url.ParseRequestURI`); query strings and
  percent-decoding are outside the model.
* The regular expression
  `^/([0-9a-zA-Z-_.]+)/([0-9a-zA-Z-_.]+)/thumb/((?:archive|temp)/)?([^/]*)/(([0-9]+)px-.+)$`
  is implemented as a deterministic parser.  Greedy submatching is forced at
  every group (the character classes exclude `/`, so each group's extent is
  determined), except for the optional `(?:archive|temp)/` group, where the
  leftmost-first backtracking of Go's regexp engine is mirrored by trying the
  consumed alternative first and falling back to the empty match.
* Lowercasing is per-character ASCII lowercasing, matching `strings.ToLower`
  on ASCII input.
* The blob store, subprocess and temp-file collaborators are modelled by an
  explicit environment `Env` recording which step fails and what the external
  tool outputs.  Metadata contents are not modelled, only the failure of the
  metadata read (the `SourceAttrs` step).  The `invoked` field of `GenResult`
  records the subprocess invocation (`cmd.Args`) that the code performs.
-/

def strL (s : String) : List Char := s.toList

/-- Character class `[0-9a-zA-Z-_.]` of the path regular expression. -/
def isClassChar (c : Char) : Bool :=
  c.isDigit || (('a' ≤ c) && (c ≤ 'z')) || (('A' ≤ c) && (c ≤ 'Z')) ||
    (c = '-') || (c = '_') || (c = '.')

def lower (s : List Char) : List Char := s.map Char.toLower

/-- Mirror of Go `strings.Split(s, ".")`: always returns at least one part. -/
def splitDot : List Char → List (List Char)
  | [] => [[]]
  | c :: cs =>
    if c = '.' then [] :: splitDot cs
    else
      match splitDot cs with
      | [] => [[c]]
      | t :: ts => (c :: t) :: ts

/-- Extension extraction of `paramExtract`: last dot-separated part when the
split yields at least two parts, otherwise the empty string. -/
def extOf (s : List Char) : List Char :=
  let parts := splitDot s
  if 2 ≤ parts.length then parts.getLastD [] else []

def MEDIA_IMAGE : List Char := strL "image"
def MEDIA_UNKNOWN : List Char := strL "unknown"
def MEDIA_VIDEO : List Char := strL "video"

def imageExts : List (List Char) :=
  [strL "png", strL "gif", strL "jpg", strL "jpeg", strL "webp"]

def videoExts : List (List Char) :=
  [strL "mp4", strL "ogg", strL "ogv", strL "webm"]

/-- Media classification of `paramExtract` (the two `slices.Contains` tests). -/
def classify (e : List Char) : List Char :=
  if e ∈ imageExts then MEDIA_IMAGE
  else if e ∈ videoExts then MEDIA_VIDEO
  else MEDIA_UNKNOWN

structure ThumbParams where
  Bucket : List Char
  FileExt : List Char
  FilePath : List Char
  MediaType : List Char
  ThumbExt : List Char
  ThumbPath : List Char
  Width : List Char
deriving DecidableEq, Repr

/-- Matches group 1/2 of the regex: a nonempty run of class characters
followed by a literal `/`; returns the run and the remainder after the `/`. -/
def classSeg (s : List Char) : Option (List Char × List Char) :=
  match s.dropWhile isClassChar with
  | [] => none
  | c :: r =>
    if c = '/' ∧ s.takeWhile isClassChar ≠ [] then
      some (s.takeWhile isClassChar, r)
    else none

/-- Strips a literal prefix. -/
def stripPre (pre s : List Char) : Option (List Char) :=
  if s.take pre.length = pre then some (s.drop pre.length) else none

/-- Splits at the first `/`: returns the (slash-free) part before it and the
part after it. -/
def breakSlash : List Char → Option (List Char × List Char)
  | [] => none
  | c :: cs =>
    if c = '/' then some ([], cs)
    else (breakSlash cs).map (fun p => (c :: p.1, p.2))

/-- Matches group 5/6 of the regex, `(([0-9]+)px-.+)$`: a maximal nonempty
digit run, the literal `px-`, and a nonempty newline-free remainder (`.`
does not match a newline).  Returns the digit run (group 6). -/
def parseThumbName (s : List Char) : Option (List Char) :=
  let w := s.takeWhile Char.isDigit
  let r := s.dropWhile Char.isDigit
  if w ≠ [] ∧ r.take 3 = strL "px-" ∧ r.drop 3 ≠ [] ∧ (∀ c ∈ r.drop 3, c ≠ '\n')
  then some w else none

/-- Matches `([^/]*)/(([0-9]+)px-.+)$`: groups 4, 5 and 6. -/
def matchSegName (s : List Char) : Option (List Char × List Char × List Char) :=
  match breakSlash s with
  | none => none
  | some (m4, m5) =>
    match parseThumbName m5 with
    | none => none
    | some w => some (m4, m5, w)

/-- One alternative of the optional group: consume the literal `pre`, then
match the rest of the pattern. -/
def tryPre (pre s : List Char) :
    Option (List Char × List Char × List Char × List Char) :=
  match stripPre pre s with
  | none => none
  | some r =>
    match matchSegName r with
    | none => none
    | some (m4, m5, w) => some (pre, m4, m5, w)

/-- The optional group matching empty. -/
def noPre (s : List Char) :
    Option (List Char × List Char × List Char × List Char) :=
  match matchSegName s with
  | none => none
  | some (m4, m5, w) => some ([], m4, m5, w)

/-- Matches `((?:archive|temp)/)?([^/]*)/(([0-9]+)px-.+)$` with leftmost-first
(greedy) semantics: the consumed alternative is preferred, falling back to the
empty optional group.  Returns groups 3, 4, 5, 6. -/
def matchTail (s : List Char) :
    Option (List Char × List Char × List Char × List Char) :=
  match tryPre (strL "archive/") s with
  | some x => some x
  | none =>
    match tryPre (strL "temp/") s with
    | some x => some x
    | none => noPre s

/-- Construction of the `ThumbParams` literal of `paramExtract` from the six
submatches (the extensions and media type are derived as in the source). -/
def mkParams (m1 m2 m3 m4 m5 m6 : List Char) : ThumbParams :=
  { Bucket := m1
    FileExt := extOf (lower m4)
    FilePath := m2 ++ '/' :: (m3 ++ m4)
    MediaType := classify (extOf (lower m4))
    ThumbExt := extOf (lower m5)
    ThumbPath := m2 ++ (strL "/thumb/" ++ (m3 ++ (m4 ++ ('/' :: m5))))
    Width := m6 }

/-- `paramExtract` on the decoded request path: regex match, extension
extraction, media classification, field construction.  `none` models the
error returns (no partial `ThumbParams` is ever produced). -/
def paramExtract (path : List Char) : Option ThumbParams :=
  match path with
  | [] => none
  | c :: r0 =>
    if c = '/' then
      (classSeg r0).bind (fun p1 =>
        (classSeg p1.2).bind (fun p2 =>
          (stripPre (strL "thumb/") p2.2).bind (fun r3 =>
            (matchTail r3).map (fun m =>
              mkParams p1.1 p2.1 m.1 m.2.1 m.2.2.1 m.2.2.2))))
    else none

/-- `paramValidate`: `none` models the `nil` (accepted) result, `some msg`
the returned error. -/
def paramValidate (p : ThumbParams) : Option (List Char) :=
  if p.MediaType = MEDIA_UNKNOWN then
    some (strL "Unsupported source file extension")
  else if p.MediaType = MEDIA_VIDEO ∧ p.ThumbExt = strL "jpg" then none
  else if p.ThumbExt = p.FileExt then none
  else some (strL "Unsupported thumbnail file extension")

inductive ReadErr where
  | notExist : ReadErr
  | other : ReadErr
deriving DecidableEq, Repr

/-- Outcomes of the collaborators (blob store, temp files, external tool)
during one generation run. -/
structure Env where
  newClientErr : Bool
  readerErr : Option ReadErr
  attrsErr : Bool
  readAllErr : Bool
  createTempErr : Bool
  tempName : List Char
  copyTempErr : Bool
  cmdOut : Option (List Nat)
  uploadCopyErr : Bool
  uploadCloseErr : Bool
  closeTempErr : Bool
deriving DecidableEq, Repr

structure ThumbError where
  ctx : List Char
deriving DecidableEq, Repr

def ThumbError.IsNotFound (e : ThumbError) : Bool :=
  decide (e.ctx = strL "NotFound")

/-- Result of a generation function: the returned byte slice (`none` models a
`nil` slice), the returned error, and — as an observation of the run — the
subprocess invocation that was performed, if any. -/
structure GenResult where
  out : Option (List Nat)
  err : Option ThumbError
  invoked : Option (List Char × List (List Char))
deriving DecidableEq, Repr

def vipsInOpts (e : List Char) : List Char :=
  if e = strL "gif" then strL "[n=-1]"
  else if e = strL "webp" then strL "[n=-1]"
  else []

def vipsOptions (e : List Char) : List Char :=
  if e = strL "jpeg" ∨ e = strL "jpg" then strL "strip,Q=96"
  else if e = strL "webp" then strL "strip,lossless"
  else strL "strip,"

/-- The `vipsthumbnail` invocation of the pipe strategy's image branch. -/
def vipsCmd (p : ThumbParams) : List Char × List (List Char) :=
  (strL "vipsthumbnail",
   [strL "--output=." ++ p.ThumbExt ++ strL "[" ++ vipsOptions p.FileExt ++ strL "]",
    strL "--size=" ++ p.Width ++ strL "x",
    strL "--vips-concurrency=1",
    strL "stdin" ++ vipsInOpts p.FileExt])

/-- The shared ffmpeg argument vector, parameterized by the input-format
argument, the input argument (`pipe:` or the temp file name) and the width. -/
def ffmpegArgs (fmtA inputA width : List Char) : List (List Char) :=
  [strL "-f", fmtA, strL "-i", inputA,
   strL "-vframes", strL "1",
   strL "-an",
   strL "-f", strL "image2pipe",
   strL "-vf", strL "scale=" ++ width ++ strL ":-1",
   strL "-qscale:v", strL "1", strL "-qmin", strL "1", strL "-qmax", strL "1",
   strL "-nostats",
   strL "-loglevel", strL "fatal",
   strL "pipe:1"]

/-- `ogv` is remapped to `ogg` by the pipe strategy's video branch. -/
def ogvRemap (e : List Char) : List Char :=
  if e = strL "ogv" then strL "ogg" else e

/-- The ffmpeg invocation of the pipe strategy's video branch. -/
def videoPipeCmd (p : ThumbParams) : List Char × List (List Char) :=
  (strL "ffmpeg", ffmpegArgs (ogvRemap p.FileExt) (strL "pipe:") p.Width)

/-- The ffmpeg invocation of the file strategy (no alias remapping; the temp
file name is the input argument). -/
def videoFileCmd (p : ThumbParams) (tmp : List Char) :
    List Char × List (List Char) :=
  (strL "ffmpeg", ffmpegArgs p.FileExt tmp p.Width)

/-- Shared tail of the pipe strategy: run the command, then upload (copy +
close).  Upload failures happen after the output bytes exist, so the bytes
are still returned. -/
def runCmdAndUpload (env : Env) (cmd : List Char × List (List Char)) :
    GenResult :=
  match env.cmdOut with
  | none => ⟨none, some ⟨strL "Command"⟩, some cmd⟩
  | some out =>
    if env.uploadCopyErr then ⟨some out, some ⟨strL "Copy"⟩, some cmd⟩
    else if env.uploadCloseErr then ⟨some out, some ⟨strL "Close"⟩, some cmd⟩
    else ⟨some out, none, some cmd⟩

/-- `generateThumbFromPipe`: client, streamed read (distinguishing the
not-exist condition), metadata read, read-all into memory, media-type
dispatch to the tool invocation, upload. -/
def generateThumbFromPipe (env : Env) (p : ThumbParams) : GenResult :=
  if env.newClientErr then ⟨none, some ⟨strL "NewClient"⟩, none⟩
  else
    match env.readerErr with
    | some ReadErr.notExist => ⟨none, some ⟨strL "NotFound"⟩, none⟩
    | some ReadErr.other => ⟨none, some ⟨strL "NewReader"⟩, none⟩
    | none =>
      if env.attrsErr then ⟨none, some ⟨strL "SourceAttrs"⟩, none⟩
      else if env.readAllErr then ⟨none, some ⟨strL "ReadAll"⟩, none⟩
      else if p.MediaType = MEDIA_IMAGE then runCmdAndUpload env (vipsCmd p)
      else if p.MediaType = MEDIA_VIDEO then
        runCmdAndUpload env (videoPipeCmd p)
      else ⟨none, some ⟨strL "NoHandler"⟩, none⟩

/-- `generateThumbFromFile`: client, streamed read, metadata read, temp file
creation and copy, ffmpeg on the temp file path, upload, temp-file close.
Note: the early temp-file copy failure and the late upload copy failure share
the context string `Copy`, as in the source. -/
def generateThumbFromFile (env : Env) (p : ThumbParams) : GenResult :=
  if env.newClientErr then ⟨none, some ⟨strL "NewClient"⟩, none⟩
  else
    match env.readerErr with
    | some ReadErr.notExist => ⟨none, some ⟨strL "NotFound"⟩, none⟩
    | some ReadErr.other => ⟨none, some ⟨strL "NewReader"⟩, none⟩
    | none =>
      if env.attrsErr then ⟨none, some ⟨strL "SourceAttrs"⟩, none⟩
      else if env.createTempErr then ⟨none, some ⟨strL "CreateTemp"⟩, none⟩
      else if env.copyTempErr then ⟨none, some ⟨strL "Copy"⟩, none⟩
      else
        match env.cmdOut with
        | none => ⟨none, some ⟨strL "Command"⟩, some (videoFileCmd p env.tempName)⟩
        | some out =>
          if env.uploadCopyErr then
            ⟨some out, some ⟨strL "Copy"⟩, some (videoFileCmd p env.tempName)⟩
          else if env.uploadCloseErr then
            ⟨some out, some ⟨strL "Close"⟩, some (videoFileCmd p env.tempName)⟩
          else if env.closeTempErr then
            ⟨some out, some ⟨strL "CloseTemp"⟩, some (videoFileCmd p env.tempName)⟩
          else ⟨some out, none, some (videoFileCmd p env.tempName)⟩

/-- The handler's strategy dispatch: `generateThumbFromFile` for `mp4`,
`generateThumbFromPipe` otherwise. -/
def runGen (env : Env) (p : ThumbParams) : GenResult :=
  if p.FileExt = strL "mp4" then generateThumbFromFile env p
  else generateThumbFromPipe env p

structure HttpResp where
  status : Nat
  body : List Nat
deriving DecidableEq, Repr

/-- The post-validation part of `thumbHandler`: run the chosen strategy and
map the outcome to a response.  `w.Write(out)` on a `nil` slice writes an
empty body; a `Write` without a prior `WriteHeader` yields status 200. -/
def orchestrate (env : Env) (p : ThumbParams) : HttpResp :=
  let r := runGen env p
  match r.err with
  | some e =>
    if e.IsNotFound then ⟨404, r.out.getD []⟩
    else
      match r.out with
      | none => ⟨500, []⟩
      | some o => ⟨200, o⟩
  | none => ⟨200, r.out.getD []⟩

/-- `thumbHandler`: 400 on parse failure, 400 on validation failure,
otherwise hand over to the orchestration. -/
def thumbHandler (env : Env) (path : List Char) : HttpResp :=
  match paramExtract path with
  | none => ⟨400, []⟩
  | some p =>
    match paramValidate p with
    | some _ => ⟨400, []⟩
    | none => orchestrate env p

def allClass (s : List Char) : Prop := ∀ c ∈ s, isClassChar c = true

def noSlash (s : List Char) : Prop := ∀ c ∈ s, c ≠ '/'

def noNL (s : List Char) : Prop := ∀ c ∈ s, c ≠ '\n'

/-- Declarative reading of the path regular expression
`^/([0-9a-zA-Z-_.]+)/([0-9a-zA-Z-_.]+)/thumb/((?:archive|temp)/)?([^/]*)/(([0-9]+)px-.+)$`:
a path matches exactly when it decomposes this way. -/
def structuralMatch (p : List Char) : Prop :=
  ∃ m1 m2 m3 m4 w t,
    p = '/' :: (m1 ++ '/' :: (m2 ++ '/' :: (strL "thumb/" ++
          (m3 ++ (m4 ++ '/' :: (w ++ (strL "px-" ++ t))))))) ∧
    m1 ≠ [] ∧ allClass m1 ∧ m2 ≠ [] ∧ allClass m2 ∧
    (m3 = [] ∨ m3 = strL "archive/" ∨ m3 = strL "temp/") ∧
    noSlash m4 ∧
    w ≠ [] ∧ (∀ c ∈ w, c.isDigit = true) ∧ t ≠ [] ∧ noNL t

/-- Contiguous-sublist (substring) test. -/
def isSub [DecidableEq α] (pat : List α) : List α → Bool
  | [] => decide (pat = [])
  | c :: cs => decide ((c :: cs).take pat.length = pat) || isSub pat cs

/-- An all-steps-succeed environment for concrete runs. -/
def envOk : Env :=
  { newClientErr := false
    readerErr := none
    attrsErr := false
    readAllErr := false
    createTempErr := false
    tempName := strL "/tmp/original123"
    copyTempErr := false
    cmdOut := some [7, 7, 7]
    uploadCopyErr := false
    uploadCloseErr := false
    closeTempErr := false }

/-- An environment in which only the blob-store upload copy fails. -/
def envUpCopy : Env :=
  { envOk with uploadCopyErr := true }

/-! ### List helper lemmas -/

theorem take_len_app {α : Type _} (a b : List α) : (a ++ b).take a.length = a := by
  induction a with
  | nil => simp
  | cons c cs ih => simp [ih]

theorem drop_len_app {α : Type _} (a b : List α) : (a ++ b).drop a.length = b := by
  induction a with
  | nil => simp
  | cons c cs ih => simp [ih]

theorem takeWhile_app (P : Char → Bool) (a : List Char) (x : Char) (b : List Char)
    (ha : ∀ c ∈ a, P c = true) (hx : P x = false) :
    (a ++ x :: b).takeWhile P = a ∧ (a ++ x :: b).dropWhile P = x :: b := by
  induction a with
  | nil =>
    constructor
    · simp [List.takeWhile_cons, hx]
    · simp [List.dropWhile_cons, hx]
  | cons c cs ih =>
    have hc : P c = true := ha c (by simp)
    have ih2 := ih (fun d hd => ha d (by simp [hd]))
    constructor
    · simp [List.takeWhile_cons, hc, ih2.1]
    · simp [List.dropWhile_cons, hc, ih2.2]

theorem mem_takeWhile (P : Char → Bool) (l : List Char) :
    ∀ c ∈ l.takeWhile P, P c = true := by
  induction l with
  | nil => simp
  | cons x xs ih =>
    intro c hc
    rw [List.takeWhile_cons] at hc
    by_cases hx : P x = true
    · simp [hx] at hc
      rcases hc with h | h
      · simpa [h] using hx
      · exact ih c h
    · simp [hx] at hc

theorem isSub_nil {α : Type _} [DecidableEq α] (s : List α) :
    isSub ([] : List α) s = true := by
  induction s with
  | nil => simp [isSub]
  | cons c cs ih => simp [isSub]

theorem isSub_here {α : Type _} [DecidableEq α] (pat b : List α) :
    isSub pat (pat ++ b) = true := by
  cases pat with
  | nil => simpa using isSub_nil b
  | cons p ps =>
    rw [List.cons_append]
    simp only [isSub, Bool.or_eq_true, decide_eq_true_eq]
    left
    rw [← List.cons_append]
    exact take_len_app _ _

theorem isSub_of_split {α : Type _} [DecidableEq α] (pat s a b : List α)
    (h : s = a ++ (pat ++ b)) : isSub pat s = true := by
  subst h
  induction a with
  | nil => simpa using isSub_here pat b
  | cons c cs ih =>
    rw [List.cons_append]
    cases pat with
    | nil => exact isSub_nil _
    | cons p ps =>
      simp only [isSub, Bool.or_eq_true]
      right
      exact ih

theorem splitDot_ne_nil (s : List Char) : splitDot s ≠ [] := by
  induction s with
  | nil => simp [splitDot]
  | cons c cs ih =>
    rw [splitDot]
    by_cases hc : c = '.'
    · simp [hc]
    · simp only [hc, if_false]
      rcases h : splitDot cs with _ | ⟨t, ts⟩
      · exact absurd h ih
      · simp

theorem splitDot_single (s t : List Char) (h : splitDot s = [t]) : t = s := by
  induction s generalizing t with
  | nil =>
    rw [splitDot] at h
    injection h with h1 _
    exact h1.symm
  | cons c cs ih =>
    rw [splitDot] at h
    by_cases hc : c = '.'
    · rw [if_pos hc] at h
      injection h with _ h2
      exact absurd h2 (splitDot_ne_nil cs)
    · rw [if_neg hc] at h
      rcases h' : splitDot cs with _ | ⟨u, us⟩
      · exact absurd h' (splitDot_ne_nil cs)
      · rw [h'] at h
        injection h with h1 h2
        subst h2
        have := ih u h'
        subst this
        exact h1.symm

theorem splitDot_suffix (s : List Char) :
    ∃ a, s = a ++ (splitDot s).getLastD [] := by
  induction s with
  | nil => exact ⟨[], by simp [splitDot]⟩
  | cons c cs ih =>
    rw [splitDot]
    by_cases hc : c = '.'
    · rw [if_pos hc]
      rcases h' : splitDot cs with _ | ⟨u, us⟩
      · exact absurd h' (splitDot_ne_nil cs)
      · rw [h'] at ih
        rcases ih with ⟨a, ha⟩
        refine ⟨c :: a, ?_⟩
        rw [List.getLastD_cons]
        simpa using ha
    · rw [if_neg hc]
      rcases h' : splitDot cs with _ | ⟨u, us⟩
      · exact absurd h' (splitDot_ne_nil cs)
      · cases us with
        | nil =>
          have hu : u = cs := splitDot_single cs u h'
          subst hu
          exact ⟨[], by simp⟩
        | cons v vs =>
          rw [h'] at ih
          rcases ih with ⟨a, ha⟩
          refine ⟨c :: a, ?_⟩
          rw [List.getLastD_cons]
          rw [List.getLastD_cons] at ha
          simpa using ha

theorem extOf_suffix (s : List Char) : ∃ a, s = a ++ extOf s := by
  rw [extOf]
  by_cases h : 2 ≤ (splitDot s).length
  · simp only [h, if_pos]
    exact splitDot_suffix s
  · simp only [h, if_neg, not_false_iff]
    exact ⟨s, by simp⟩

/-! ### Parser component lemmas -/

theorem classSeg_sound (s seg r : List Char) (h : classSeg s = some (seg, r)) :
    s = seg ++ '/' :: r ∧ seg ≠ [] ∧ allClass seg := by
  rcases hd : s.dropWhile isClassChar with _ | ⟨c, rest⟩
  · simp only [classSeg, hd] at h
    exact absurd h (by simp)
  · simp only [classSeg, hd] at h
    split at h
    case isTrue hcond =>
      rcases hcond with ⟨hc, hne⟩
      injection h with h1
      injection h1 with h1a h1b
      subst hc
      refine ⟨?_, ?_, ?_⟩
      · have hs := (List.takeWhile_append_dropWhile (p := isClassChar) (l := s)).symm
        rw [hd, h1a, h1b] at hs
        exact hs
      · rw [← h1a]; exact hne
      · intro x hx
        rw [← h1a] at hx
        exact mem_takeWhile _ _ x hx
    case isFalse => exact absurd h (by simp)

theorem classSeg_complete (seg r : List Char) (hne : seg ≠ []) (hall : allClass seg) :
    classSeg (seg ++ '/' :: r) = some (seg, r) := by
  have hsl : isClassChar '/' = false := by decide
  have ht := takeWhile_app isClassChar seg '/' r hall hsl
  simp [classSeg, ht.1, ht.2, hne]

theorem stripPre_sound (pre s r : List Char) (h : stripPre pre s = some r) :
    s = pre ++ r := by
  simp only [stripPre] at h
  split at h
  case isTrue hc =>
    injection h with h1
    subst h1
    conv_lhs => rw [← List.take_append_drop pre.length s]
    rw [hc]
  case isFalse => exact absurd h (by simp)

theorem stripPre_complete (pre r : List Char) :
    stripPre pre (pre ++ r) = some r := by
  simp only [stripPre, take_len_app, drop_len_app]
  simp

theorem breakSlash_sound (s a b : List Char) (h : breakSlash s = some (a, b)) :
    s = a ++ '/' :: b ∧ noSlash a := by
  induction s generalizing a b with
  | nil => simp [breakSlash] at h
  | cons c cs ih =>
    rw [breakSlash] at h
    split at h
    case isTrue hc =>
      injection h with h1
      injection h1 with h1a h1b
      subst hc
      refine ⟨?_, ?_⟩
      · rw [← h1a, ← h1b]; rfl
      · rw [← h1a]; intro x hx; simp at hx
    case isFalse hc =>
      rcases hbc : breakSlash cs with _ | ⟨a', b'⟩
      · rw [hbc] at h; simp at h
      · rw [hbc] at h
        simp only [Option.map_some'] at h
        injection h with h1
        injection h1 with h1a h1b
        rcases ih a' b' hbc with ⟨ih1, ih2⟩
        subst h1b
        refine ⟨?_, ?_⟩
        · rw [← h1a, ih1]; rfl
        · rw [← h1a]
          intro x hx
          rcases List.mem_cons.mp hx with h' | h'
          · rw [h']; exact hc
          · exact ih2 x h'

theorem breakSlash_complete (a b : List Char) (ha : noSlash a) :
    breakSlash (a ++ '/' :: b) = some (a, b) := by
  induction a with
  | nil => simp [breakSlash]
  | cons c cs ih =>
    have hc : c ≠ '/' := ha c (by simp)
    have ih2 := ih (fun x hx => ha x (by simp [hx]))
    rw [List.cons_append, breakSlash, if_neg hc, ih2]
    rfl

theorem parseThumbName_sound (s w : List Char) (h : parseThumbName s = some w) :
    ∃ t, s = w ++ (strL "px-" ++ t) ∧ w ≠ [] ∧ (∀ c ∈ w, c.isDigit = true) ∧
      t ≠ [] ∧ noNL t := by
  simp only [parseThumbName] at h
  split at h
  case isTrue hcond =>
    rcases hcond with ⟨h1, h2, h3, h4⟩
    injection h with hw
    refine ⟨(s.dropWhile Char.isDigit).drop 3, ?_, ?_, ?_, h3, h4⟩
    · conv_lhs => rw [← List.takeWhile_append_dropWhile (p := Char.isDigit) (l := s)]
      rw [hw]
      conv_lhs => rw [← List.take_append_drop 3 (s.dropWhile Char.isDigit)]
      rw [h2]
    · rw [← hw]; exact h1
    · intro c hc
      rw [← hw] at hc
      exact mem_takeWhile _ _ c hc
  case isFalse => exact absurd h (by simp)

theorem parseThumbName_complete (w t : List Char) (hw : w ≠ [])
    (hd : ∀ c ∈ w, c.isDigit = true) (ht : t ≠ []) (hn : noNL t) :
    parseThumbName (w ++ (strL "px-" ++ t)) = some w := by
  have hp : Char.isDigit 'p' = false := by decide
  have hs : strL "px-" ++ t = 'p' :: ('x' :: ('-' :: t)) := rfl
  have key := takeWhile_app Char.isDigit w 'p' ('x' :: ('-' :: t)) hd hp
  rw [hs]
  simp only [parseThumbName, key.1, key.2]
  rw [if_pos]
  refine ⟨hw, ?_, ?_, ?_⟩
  · rfl
  · show t ≠ []
    exact ht
  · show ∀ c ∈ t, c ≠ '\n'
    exact hn

theorem matchSegName_sound (s m4 m5 w : List Char)
    (h : matchSegName s = some (m4, m5, w)) :
    s = m4 ++ '/' :: m5 ∧ noSlash m4 ∧ parseThumbName m5 = some w := by
  rcases hb : breakSlash s with _ | ⟨a, b⟩
  · simp only [matchSegName, hb] at h
    exact absurd h (by simp)
  · simp only [matchSegName, hb] at h
    rcases hp : parseThumbName b with _ | w'
    · rw [hp] at h; simp at h
    · rw [hp] at h
      simp only [] at h
      injection h with h1
      injection h1 with h1a h1r
      injection h1r with h1b h1c
      rcases breakSlash_sound s a b hb with ⟨hs, hns⟩
      subst h1a; subst h1b; subst h1c
      exact ⟨hs, hns, hp⟩

theorem matchSegName_complete (m4 m5 w : List Char) (hns : noSlash m4)
    (hp : parseThumbName m5 = some w) :
    matchSegName (m4 ++ '/' :: m5) = some (m4, m5, w) := by
  simp only [matchSegName, breakSlash_complete m4 m5 hns, hp]

theorem tryPre_sound (pre s m3 m4 m5 w : List Char)
    (h : tryPre pre s = some (m3, m4, m5, w)) :
    m3 = pre ∧ s = pre ++ (m4 ++ '/' :: m5) ∧ noSlash m4 ∧
      parseThumbName m5 = some w := by
  rcases hsp : stripPre pre s with _ | r
  · simp only [tryPre, hsp] at h
    exact absurd h (by simp)
  · simp only [tryPre, hsp] at h
    rcases hm : matchSegName r with _ | ⟨a, b, w'⟩
    · rw [hm] at h; simp at h
    · rw [hm] at h
      injection h with hh
      injection hh with e1 hh
      injection hh with e2 hh
      injection hh with e3 e4
      rcases matchSegName_sound r a b w' hm with ⟨hr, hns, hp⟩
      have hs2 : s = pre ++ (a ++ '/' :: b) := by
        rw [stripPre_sound pre s r hsp, hr]
      subst e1; subst e2; subst e3; subst e4
      exact ⟨rfl, hs2, hns, hp⟩

theorem tryPre_complete (pre m4 m5 w : List Char) (hns : noSlash m4)
    (hp : parseThumbName m5 = some w) :
    tryPre pre (pre ++ (m4 ++ '/' :: m5)) = some (pre, m4, m5, w) := by
  simp only [tryPre, stripPre_complete pre (m4 ++ '/' :: m5),
    matchSegName_complete m4 m5 w hns hp]

theorem noPre_sound (s m3 m4 m5 w : List Char)
    (h : noPre s = some (m3, m4, m5, w)) :
    m3 = [] ∧ s = m4 ++ '/' :: m5 ∧ noSlash m4 ∧
      parseThumbName m5 = some w := by
  rcases hm : matchSegName s with _ | ⟨a, b, w'⟩
  · simp only [noPre, hm] at h
    exact absurd h (by simp)
  · simp only [noPre, hm] at h
    injection h with hh
    injection hh with e1 hh
    injection hh with e2 hh
    injection hh with e3 e4
    rcases matchSegName_sound s a b w' hm with ⟨hr, hns, hp⟩
    subst e1; subst e2; subst e3; subst e4
    exact ⟨rfl, hr, hns, hp⟩

theorem noPre_complete (m4 m5 w : List Char) (hns : noSlash m4)
    (hp : parseThumbName m5 = some w) :
    noPre (m4 ++ '/' :: m5) = some ([], m4, m5, w) := by
  simp only [noPre, matchSegName_complete m4 m5 w hns hp]

theorem stripPre_ta (rest : List Char) :
    stripPre (strL "archive/") (strL "temp/" ++ rest) = none := by
  simp only [stripPre]
  split
  case isTrue hc =>
    exfalso
    have h8 : (strL "temp/" ++ rest).take (strL "archive/").length =
        't' :: ('e' :: ('m' :: ('p' :: ('/' :: rest.take 3)))) := rfl
    rw [h8] at hc
    injection hc with hc1 _
    exact absurd hc1 (by decide)
  case isFalse => rfl

theorem matchTail_sound (s m3 m4 m5 w : List Char)
    (h : matchTail s = some (m3, m4, m5, w)) :
    s = m3 ++ (m4 ++ '/' :: m5) ∧
    (m3 = [] ∨ m3 = strL "archive/" ∨ m3 = strL "temp/") ∧
    noSlash m4 ∧ parseThumbName m5 = some w := by
  rcases h1 : tryPre (strL "archive/") s with _ | ⟨a3, a4, a5, aw⟩
  · rcases h2 : tryPre (strL "temp/") s with _ | ⟨b3, b4, b5, bw⟩
    · simp only [matchTail, h1, h2] at h
      rcases noPre_sound s m3 m4 m5 w h with ⟨hm3, hs, hns, hp⟩
      subst hm3
      exact ⟨by simpa using hs, Or.inl rfl, hns, hp⟩
    · simp only [matchTail, h1, h2] at h
      rcases tryPre_sound (strL "temp/") s b3 b4 b5 bw h2 with ⟨hb3, hs, hns, hp⟩
      injection h with hh
      injection hh with e1 hh
      injection hh with e2 hh
      injection hh with e3 e4
      subst e1; subst e2; subst e3; subst e4
      subst hb3
      exact ⟨hs, Or.inr (Or.inr rfl), hns, hp⟩
  · simp only [matchTail, h1] at h
    rcases tryPre_sound (strL "archive/") s a3 a4 a5 aw h1 with ⟨ha3, hs, hns, hp⟩
    injection h with hh
    injection hh with e1 hh
    injection hh with e2 hh
    injection hh with e3 e4
    subst e1; subst e2; subst e3; subst e4
    subst ha3
    exact ⟨hs, Or.inr (Or.inl rfl), hns, hp⟩

theorem matchTail_complete (m3 m4 m5 w : List Char)
    (hm3 : m3 = [] ∨ m3 = strL "archive/" ∨ m3 = strL "temp/")
    (hns : noSlash m4) (hp : parseThumbName m5 = some w) :
    (matchTail (m3 ++ (m4 ++ '/' :: m5))).isSome = true := by
  rcases hm3 with h3 | h3 | h3
  · subst h3
    rw [List.nil_append]
    rcases h1 : tryPre (strL "archive/") (m4 ++ '/' :: m5) with _ | x
    · rcases h2 : tryPre (strL "temp/") (m4 ++ '/' :: m5) with _ | x
      · simp [matchTail, h1, h2, noPre_complete m4 m5 w hns hp]
      · simp [matchTail, h1, h2]
    · simp [matchTail, h1]
  · subst h3
    have ha := tryPre_complete (strL "archive/") m4 m5 w hns hp
    simp [matchTail, ha]
  · subst h3
    have h1 : tryPre (strL "archive/") (strL "temp/" ++ (m4 ++ '/' :: m5)) = none := by
      simp only [tryPre, stripPre_ta]
    have h2 := tryPre_complete (strL "temp/") m4 m5 w hns hp
    simp [matchTail, h1, h2]

/-! ### Parser soundness and completeness -/

theorem extract_sound (path : List Char) (q : ThumbParams)
    (h : paramExtract path = some q) :
    ∃ m1 m2 m3 m4 m5 m6,
      path = '/' :: (m1 ++ '/' :: (m2 ++ '/' :: (strL "thumb/" ++
        (m3 ++ (m4 ++ '/' :: m5))))) ∧
      m1 ≠ [] ∧ allClass m1 ∧ m2 ≠ [] ∧ allClass m2 ∧
      (m3 = [] ∨ m3 = strL "archive/" ∨ m3 = strL "temp/") ∧
      noSlash m4 ∧ parseThumbName m5 = some m6 ∧
      q = mkParams m1 m2 m3 m4 m5 m6 := by
  cases path with
  | nil => simp [paramExtract] at h
  | cons c r0 =>
    simp only [paramExtract] at h
    split at h
    case isFalse => exact absurd h (by simp)
    case isTrue hc =>
      subst hc
      rw [Option.bind_eq_some] at h
      rcases h with ⟨⟨m1, r1⟩, h1, h⟩
      rw [Option.bind_eq_some] at h
      rcases h with ⟨⟨m2, r2⟩, h2, h⟩
      rw [Option.bind_eq_some] at h
      rcases h with ⟨r3, h3, h⟩
      rw [Option.map_eq_some'] at h
      rcases h with ⟨⟨m3, m4, m5, m6⟩, h4, h5⟩
      rcases classSeg_sound r0 m1 r1 h1 with ⟨e1, hne1, hall1⟩
      rcases classSeg_sound r1 m2 r2 h2 with ⟨e2, hne2, hall2⟩
      have e3 := stripPre_sound (strL "thumb/") r2 r3 h3
      rcases matchTail_sound r3 m3 m4 m5 m6 h4 with ⟨e4, hm3, hns, hp⟩
      refine ⟨m1, m2, m3, m4, m5, m6, ?_, hne1, hall1, hne2, hall2, hm3, hns, hp, h5.symm⟩
      rw [e1, e2, e3, e4]

theorem extract_complete (m1 m2 m3 m4 m5 m6 : List Char)
    (h1 : m1 ≠ []) (h2 : allClass m1) (h3 : m2 ≠ []) (h4 : allClass m2)
    (h5 : m3 = [] ∨ m3 = strL "archive/" ∨ m3 = strL "temp/")
    (h6 : noSlash m4) (h7 : parseThumbName m5 = some m6) :
    (paramExtract ('/' :: (m1 ++ '/' :: (m2 ++ '/' :: (strL "thumb/" ++
      (m3 ++ (m4 ++ '/' :: m5))))))).isSome = true := by
  simp only [paramExtract, if_pos rfl]
  rw [classSeg_complete m1 _ h1 h2]
  simp only [Option.some_bind]
  rw [classSeg_complete m2 _ h3 h4]
  simp only [Option.some_bind]
  rw [stripPre_complete (strL "thumb/") _]
  simp only [Option.some_bind]
  have hmt := matchTail_complete m3 m4 m5 m6 h5 h6 h7
  rcases ho : matchTail (m3 ++ (m4 ++ '/' :: m5)) with _ | x
  · rw [ho] at hmt; simp at hmt
  · simp

theorem slashThumb_eq : strL "/thumb/" = '/' :: strL "thumb/" := rfl

theorem extract_shape (path : List Char) (q : ThumbParams)
    (h : paramExtract path = some q) :
    path = '/' :: (q.Bucket ++ ('/' :: q.ThumbPath)) := by
  rcases extract_sound path q h with
    ⟨m1, m2, m3, m4, m5, m6, hpath, _, _, _, _, _, _, _, hq⟩
  subst hq
  rw [hpath]
  simp [mkParams, slashThumb_eq]

theorem extract_media (path : List Char) (q : ThumbParams)
    (h : paramExtract path = some q) :
    q.MediaType = classify q.FileExt := by
  rcases extract_sound path q h with
    ⟨m1, m2, m3, m4, m5, m6, _, _, _, _, _, _, _, _, hq⟩
  subst hq
  rfl

theorem ext_disjoint (e : List Char) (h1 : e ∈ imageExts) (h2 : e ∈ videoExts) :
    False := by
  simp [imageExts] at h1
  rcases h1 with rfl | rfl | rfl | rfl | rfl <;> exact absurd h2 (by decide)

/-- Claim C1 (corrected): for every successfully parsed request, `paramValidate`
accepts exactly the pairs of the matrix realized by the code: a source whose
extension is a recognized image extension with an equal target extension, or a
recognized video source with target `jpg` or with a target equal to the source
extension.  In this variant `svg` is not a recognized image extension (it
classifies as unknown) and is therefore always rejected; everything else is
rejected (default-deny). -/
theorem C1_validate_matrix (path : List Char) (q : ThumbParams)
    (h : paramExtract path = some q) :
    paramValidate q = none ↔
      ((q.FileExt ∈ imageExts ∧ q.ThumbExt = q.FileExt) ∨
       (q.FileExt ∈ videoExts ∧ (q.ThumbExt = strL "jpg" ∨ q.ThumbExt = q.FileExt))) := by
  have hm := extract_media path q h
  have d1 : ¬ (MEDIA_IMAGE = MEDIA_UNKNOWN) := by decide
  have d2 : ¬ (MEDIA_IMAGE = MEDIA_VIDEO) := by decide
  have d3 : ¬ (MEDIA_VIDEO = MEDIA_UNKNOWN) := by decide
  by_cases hi : q.FileExt ∈ imageExts
  · by_cases hv : q.FileExt ∈ videoExts
    · exact (ext_disjoint q.FileExt hi hv).elim
    · have hmi : q.MediaType = MEDIA_IMAGE := by
        rw [hm]; simp [classify, hi]
      by_cases hte : q.ThumbExt = q.FileExt
      · simp [paramValidate, hmi, d1, d2, hte, hi]
      · simp [paramValidate, hmi, d1, d2, hte, hi, hv]
  · by_cases hv : q.FileExt ∈ videoExts
    · have hmv : q.MediaType = MEDIA_VIDEO := by
        rw [hm]; simp [classify, hi, hv]
      by_cases hj : q.ThumbExt = strL "jpg"
      · simp [paramValidate, hmv, d3, hj, hv]
      · by_cases hte : q.ThumbExt = q.FileExt
        · simp [paramValidate, hmv, d3, hj, hte, hv]
        · simp [paramValidate, hmv, d3, hj, hte, hi, hv]
    · have hmu : q.MediaType = MEDIA_UNKNOWN := by
        rw [hm]; simp [classify, hi, hv]
      simp [paramValidate, hmu, hi, hv]

/-- Claim C1, witness: the matrix theorem applied at the concretely parsed
request for `/mywiki/en/thumb/Cat.jpg/100px-Cat.jpg`, giving acceptance. -/
theorem C1_validate_matrix_witness :
    paramValidate
      { Bucket := strL "mywiki", FileExt := strL "jpg",
        FilePath := strL "en/Cat.jpg", MediaType := MEDIA_IMAGE,
        ThumbExt := strL "jpg", ThumbPath := strL "en/thumb/Cat.jpg/100px-Cat.jpg",
        Width := strL "100" } = none :=
  (C1_validate_matrix (strL "/mywiki/en/thumb/Cat.jpg/100px-Cat.jpg") _ (by decide)).mpr
    (Or.inl ⟨by decide, by decide⟩)

/-- Claim C1, counterexample: an `svg` source with a `png` target parses but is
rejected by `paramValidate` (as an unsupported source, `svg` being unrecognized
in this variant), contradicting the claim that svg→png is accepted. -/
theorem C1_svg_png_rejected_cex :
    paramExtract (strL "/w/x/thumb/a.svg/100px-a.png") =
      some { Bucket := strL "w", FileExt := strL "svg", FilePath := strL "x/a.svg",
             MediaType := MEDIA_UNKNOWN, ThumbExt := strL "png",
             ThumbPath := strL "x/thumb/a.svg/100px-a.png", Width := strL "100" } ∧
    paramValidate
      { Bucket := strL "w", FileExt := strL "svg", FilePath := strL "x/a.svg",
        MediaType := MEDIA_UNKNOWN, ThumbExt := strL "png",
        ThumbPath := strL "x/thumb/a.svg/100px-a.png", Width := strL "100" } =
      some (strL "Unsupported source file extension") := by
  constructor <;> decide

/-- Claim C8 (confirmed): parsing is injective on (container, thumbPath): two
paths that parse to the same bucket and thumbnail key are identical. -/
theorem C8_parse_injective (p1 p2 : List Char) (q1 q2 : ThumbParams)
    (h1 : paramExtract p1 = some q1) (h2 : paramExtract p2 = some q2)
    (hb : q1.Bucket = q2.Bucket) (ht : q1.ThumbPath = q2.ThumbPath) :
    p1 = p2 := by
  rw [extract_shape p1 q1 h1, extract_shape p2 q2 h2, hb, ht]

/-- Claim C8, witness: the injectivity theorem applied at a concrete parsed
path (both sides instantiated with the same request). -/
theorem C8_parse_injective_witness :
    strL "/mywiki/en/thumb/Cat.jpg/100px-Cat.jpg" =
      strL "/mywiki/en/thumb/Cat.jpg/100px-Cat.jpg" :=
  C8_parse_injective _ _
    { Bucket := strL "mywiki", FileExt := strL "jpg",
      FilePath := strL "en/Cat.jpg", MediaType := MEDIA_IMAGE,
      ThumbExt := strL "jpg", ThumbPath := strL "en/thumb/Cat.jpg/100px-Cat.jpg",
      Width := strL "100" }
    { Bucket := strL "mywiki", FileExt := strL "jpg",
      FilePath := strL "en/Cat.jpg", MediaType := MEDIA_IMAGE,
      ThumbExt := strL "jpg", ThumbPath := strL "en/thumb/Cat.jpg/100px-Cat.jpg",
      Width := strL "100" }
    (by decide) (by decide) rfl rfl

/-- Claim C9 (confirmed): a video-source request whose target extension equals
its source extension is accepted by `paramValidate`, and the handler proceeds
to the orchestration step for it. -/
theorem C9_video_same_ext_ok (path : List Char) (q : ThumbParams)
    (h : paramExtract path = some q) (hmv : q.MediaType = MEDIA_VIDEO)
    (hte : q.ThumbExt = q.FileExt) :
    paramValidate q = none ∧ ∀ env, thumbHandler env path = orchestrate env q := by
  have d3 : ¬ (MEDIA_VIDEO = MEDIA_UNKNOWN) := by decide
  have hval : paramValidate q = none := by
    by_cases hj : q.ThumbExt = strL "jpg"
    · simp [paramValidate, hmv, d3, hj]
    · simp [paramValidate, hmv, d3, hj, hte]
  refine ⟨hval, fun env => ?_⟩
  simp [thumbHandler, h, hval]

/-- Claim C9, witness: a webm source with a webm target is accepted and the
handler output equals the orchestration output on a concrete environment. -/
theorem C9_video_same_ext_ok_witness :
    paramValidate
      { Bucket := strL "w", FileExt := strL "webm", FilePath := strL "x/a.webm",
        MediaType := MEDIA_VIDEO, ThumbExt := strL "webm",
        ThumbPath := strL "x/thumb/a.webm/10px-a.webm", Width := strL "10" } = none ∧
    thumbHandler envOk (strL "/w/x/thumb/a.webm/10px-a.webm") =
      orchestrate envOk
        { Bucket := strL "w", FileExt := strL "webm", FilePath := strL "x/a.webm",
          MediaType := MEDIA_VIDEO, ThumbExt := strL "webm",
          ThumbPath := strL "x/thumb/a.webm/10px-a.webm", Width := strL "10" } := by
  have h := C9_video_same_ext_ok (strL "/w/x/thumb/a.webm/10px-a.webm")
    { Bucket := strL "w", FileExt := strL "webm", FilePath := strL "x/a.webm",
      MediaType := MEDIA_VIDEO, ThumbExt := strL "webm",
      ThumbPath := strL "x/thumb/a.webm/10px-a.webm", Width := strL "10" }
    (by decide) (by decide) (by decide)
  exact ⟨h.1, h.2 envOk⟩

/-- Claim C10 (confirmed): a path with an empty filename segment parses
successfully into a request with empty source extension and unrecognized media
type, which `paramValidate` then rejects as an unsupported source. -/
theorem C10_empty_filename_parses :
    paramExtract (strL "/bucket/wiki/thumb//120px-x") =
      some { Bucket := strL "bucket", FileExt := [], FilePath := strL "wiki/",
             MediaType := MEDIA_UNKNOWN, ThumbExt := [],
             ThumbPath := strL "wiki/thumb//120px-x", Width := strL "120" } ∧
    paramValidate
      { Bucket := strL "bucket", FileExt := [], FilePath := strL "wiki/",
        MediaType := MEDIA_UNKNOWN, ThumbExt := [],
        ThumbPath := strL "wiki/thumb//120px-x", Width := strL "120" } =
      some (strL "Unsupported source file extension") := by
  constructor <;> decide

theorem lower_append (a b : List Char) : lower (a ++ b) = lower a ++ lower b := by
  simp [lower]

theorem isSub_lower_ext (path pre mid suf : List Char)
    (h : path = pre ++ (mid ++ suf)) :
    isSub (extOf (lower mid)) (lower path) = true := by
  rcases extOf_suffix (lower mid) with ⟨a, ha⟩
  apply isSub_of_split _ _ (lower pre ++ a) (lower suf)
  rw [h, lower_append, lower_append]
  conv_lhs => rw [ha]
  simp [List.append_assoc]

/-- Claim C2 (confirmed): `paramExtract` succeeds exactly on the paths matching
the structural pattern (the declarative reading of the regex), and in
particular fails — returning nothing at all — on every path in which `/thumb/`
does not occur.  Mismatched character classes and non-digit width segments are
excluded by `structuralMatch`, so they also force failure. -/
theorem C2_parse_characterization (path : List Char) :
    ((paramExtract path).isSome = true ↔ structuralMatch path) ∧
    (isSub (strL "/thumb/") path = false → paramExtract path = none) := by
  constructor
  · constructor
    · intro h
      rcases ho : paramExtract path with _ | q
      · rw [ho] at h; simp at h
      · rcases extract_sound path q ho with
          ⟨m1, m2, m3, m4, m5, m6, hpath, hne1, hall1, hne2, hall2, hm3, hns, hp, _⟩
        rcases parseThumbName_sound m5 m6 hp with ⟨t, hm5, hw, hdg, ht, hnl⟩
        refine ⟨m1, m2, m3, m4, m6, t, ?_, hne1, hall1, hne2, hall2, hm3, hns,
          hw, hdg, ht, hnl⟩
        rw [hpath, hm5]
    · intro h
      rcases h with ⟨m1, m2, m3, m4, w, t, hpath, hne1, hall1, hne2, hall2,
        hm3, hns, hw, hdg, ht, hnl⟩
      have hp := parseThumbName_complete w t hw hdg ht hnl
      have hdone := extract_complete m1 m2 m3 m4 (w ++ (strL "px-" ++ t)) w
        hne1 hall1 hne2 hall2 hm3 hns hp
      rw [hpath]
      exact hdone
  · intro h
    rcases ho : paramExtract path with _ | q
    · rfl
    · exfalso
      rcases extract_sound path q ho with ⟨m1, m2, m3, m4, m5, m6, hpath, _⟩
      have hsub : isSub (strL "/thumb/") path = true := by
        apply isSub_of_split (strL "/thumb/") path ('/' :: (m1 ++ '/' :: m2))
          (m3 ++ (m4 ++ '/' :: m5))
        rw [hpath, slashThumb_eq]
        simp
      rw [hsub] at h
      simp at h

/-- Claim C2, witness: the characterization applied to the well-formed path
`/mywiki/en/thumb/Cat.jpg/100px-Cat.jpg`, whose explicit structural
decomposition forces a successful parse. -/
theorem C2_parse_characterization_witness :
    (paramExtract (strL "/mywiki/en/thumb/Cat.jpg/100px-Cat.jpg")).isSome = true :=
  (C2_parse_characterization _).1.mpr
    ⟨strL "mywiki", strL "en", [], strL "Cat.jpg", strL "100", strL "Cat.jpg",
     by decide, by decide, by unfold allClass; decide, by decide,
     by unfold allClass; decide, Or.inl rfl, by unfold noSlash; decide,
     by decide, by decide, by decide, by unfold noNL; decide⟩

/-- Claim C7 (corrected, amended): for every well-formed path, `paramExtract`
never fails; the returned container, thumbnail path and width are exact
substrings of the input path, and the two extensions are exact substrings of
the lowercased path.  The source path, by contrast, is not in general a
substring: it is the concatenation of the subpath segment, a slash, and the
marker-plus-filename part, each piece being an exact substring of the path
(the `thumb/` segment is omitted between them). -/
theorem C7_fields_substrings (path : List Char) :
    (structuralMatch path → (paramExtract path).isSome = true) ∧
    (∀ q, paramExtract path = some q →
      isSub q.Bucket path = true ∧ isSub q.ThumbPath path = true ∧
      isSub q.Width path = true ∧ isSub q.FileExt (lower path) = true ∧
      isSub q.ThumbExt (lower path) = true ∧
      ∃ sub mf, q.FilePath = sub ++ ('/' :: mf) ∧
        isSub sub path = true ∧ isSub mf path = true) := by
  constructor
  · intro h
    rcases h with ⟨m1, m2, m3, m4, w, t, hpath, hne1, hall1, hne2, hall2,
      hm3, hns, hw, hdg, ht, hnl⟩
    have hp := parseThumbName_complete w t hw hdg ht hnl
    have hdone := extract_complete m1 m2 m3 m4 (w ++ (strL "px-" ++ t)) w
      hne1 hall1 hne2 hall2 hm3 hns hp
    rw [hpath]
    exact hdone
  · intro q hq
    rcases extract_sound path q hq with
      ⟨m1, m2, m3, m4, m5, m6, hpath, _, _, _, _, _, _, hp, hqe⟩
    rcases parseThumbName_sound m5 m6 hp with ⟨t, hm5, _, _, _, _⟩
    subst hqe
    refine ⟨?_, ?_, ?_, ?_, ?_, m2, m3 ++ m4, rfl, ?_, ?_⟩
    · apply isSub_of_split _ path ['/']
        ('/' :: (m2 ++ '/' :: (strL "thumb/" ++ (m3 ++ (m4 ++ '/' :: m5)))))
      rw [hpath]
      simp [mkParams]
    · apply isSub_of_split _ path ('/' :: (m1 ++ ['/'])) []
      rw [hpath]
      simp [mkParams, slashThumb_eq]
    · apply isSub_of_split _ path
        ('/' :: (m1 ++ '/' :: (m2 ++ '/' :: (strL "thumb/" ++ (m3 ++ (m4 ++ ['/']))))))
        (strL "px-" ++ t)
      rw [hpath, hm5]
      simp [mkParams]
    · show isSub (extOf (lower m4)) (lower path) = true
      apply isSub_lower_ext path
        ('/' :: (m1 ++ '/' :: (m2 ++ '/' :: (strL "thumb/" ++ m3)))) m4 ('/' :: m5)
      rw [hpath]
      simp
    · show isSub (extOf (lower m5)) (lower path) = true
      apply isSub_lower_ext path
        ('/' :: (m1 ++ '/' :: (m2 ++ '/' :: (strL "thumb/" ++ (m3 ++ (m4 ++ ['/'])))))) m5 []
      rw [hpath]
      simp
    · apply isSub_of_split _ path ('/' :: (m1 ++ ['/']))
        ('/' :: (strL "thumb/" ++ (m3 ++ (m4 ++ '/' :: m5))))
      rw [hpath]
      simp
    · apply isSub_of_split _ path
        ('/' :: (m1 ++ '/' :: (m2 ++ '/' :: strL "thumb/"))) ('/' :: m5)
      rw [hpath]
      simp

/-- Claim C7, witness: the substring facts applied at the concretely parsed
path `/mywiki/en/thumb/Cat.jpg/100px-Cat.jpg`. -/
theorem C7_fields_substrings_witness :
    isSub (strL "mywiki") (strL "/mywiki/en/thumb/Cat.jpg/100px-Cat.jpg") = true ∧
    isSub (strL "en/thumb/Cat.jpg/100px-Cat.jpg")
      (strL "/mywiki/en/thumb/Cat.jpg/100px-Cat.jpg") = true := by
  have h := (C7_fields_substrings (strL "/mywiki/en/thumb/Cat.jpg/100px-Cat.jpg")).2
    { Bucket := strL "mywiki", FileExt := strL "jpg",
      FilePath := strL "en/Cat.jpg", MediaType := MEDIA_IMAGE,
      ThumbExt := strL "jpg", ThumbPath := strL "en/thumb/Cat.jpg/100px-Cat.jpg",
      Width := strL "100" } (by decide)
  exact ⟨h.1, h.2.1⟩

/-- Claim C7, counterexample: for `/mywiki/en/thumb/Cat.jpg/100px-Cat.jpg` the
parsed source path is `en/Cat.jpg`, which is not a substring of the input path
(the `thumb/` segment sits between `en/` and `Cat.jpg`). -/
theorem C7_sourcepath_not_substring_cex :
    paramExtract (strL "/mywiki/en/thumb/Cat.jpg/100px-Cat.jpg") =
      some { Bucket := strL "mywiki", FileExt := strL "jpg",
             FilePath := strL "en/Cat.jpg", MediaType := MEDIA_IMAGE,
             ThumbExt := strL "jpg",
             ThumbPath := strL "en/thumb/Cat.jpg/100px-Cat.jpg",
             Width := strL "100" } ∧
    isSub (strL "en/Cat.jpg") (strL "/mywiki/en/thumb/Cat.jpg/100px-Cat.jpg") = false := by
  constructor <;> decide

/-! ### Generation-run lemmas -/

theorem runCmdAndUpload_out (env : Env) (cmd : List Char × List (List Char))
    (out : List Nat) (h : (runCmdAndUpload env cmd).out = some out) :
    env.cmdOut = some out := by
  rcases hc : env.cmdOut with _ | o
  · simp [runCmdAndUpload, hc] at h
  · cases hu : env.uploadCopyErr
    · cases hl : env.uploadCloseErr
      · simp [runCmdAndUpload, hc, hu, hl] at h
        rw [h]
      · simp [runCmdAndUpload, hc, hu, hl] at h
        rw [h]
    · simp [runCmdAndUpload, hc, hu] at h
      rw [h]

theorem pipe_out (env : Env) (p : ThumbParams) (out : List Nat)
    (h : (generateThumbFromPipe env p).out = some out) :
    env.cmdOut = some out := by
  cases h1 : env.newClientErr
  · rcases h2 : env.readerErr with _ | re
    · cases h3 : env.attrsErr
      · cases h4 : env.readAllErr
        · by_cases hmi : p.MediaType = MEDIA_IMAGE
          · rw [show generateThumbFromPipe env p = runCmdAndUpload env (vipsCmd p) from by
              simp [generateThumbFromPipe, h1, h2, h3, h4, hmi]] at h
            exact runCmdAndUpload_out env _ out h
          · by_cases hmv : p.MediaType = MEDIA_VIDEO
            · have dvi : ¬ (MEDIA_VIDEO = MEDIA_IMAGE) := by decide
              rw [show generateThumbFromPipe env p = runCmdAndUpload env (videoPipeCmd p) from by
                simp [generateThumbFromPipe, h1, h2, h3, h4, hmv, dvi]] at h
              exact runCmdAndUpload_out env _ out h
            · simp [generateThumbFromPipe, h1, h2, h3, h4, hmi, hmv] at h
        · simp [generateThumbFromPipe, h1, h2, h3, h4] at h
      · simp [generateThumbFromPipe, h1, h2, h3] at h
    · cases re <;> simp [generateThumbFromPipe, h1, h2] at h
  · simp [generateThumbFromPipe, h1] at h

theorem file_out (env : Env) (p : ThumbParams) (out : List Nat)
    (h : (generateThumbFromFile env p).out = some out) :
    env.cmdOut = some out := by
  cases h1 : env.newClientErr
  · rcases h2 : env.readerErr with _ | re
    · cases h3 : env.attrsErr
      · cases h5 : env.createTempErr
        · cases h6 : env.copyTempErr
          · rcases hc : env.cmdOut with _ | o
            · simp [generateThumbFromFile, h1, h2, h3, h5, h6, hc] at h
            · cases hu : env.uploadCopyErr
              · cases hl : env.uploadCloseErr
                · cases ht : env.closeTempErr
                  · simp [generateThumbFromFile, h1, h2, h3, h5, h6, hc, hu, hl, ht] at h
                    rw [h]
                  · simp [generateThumbFromFile, h1, h2, h3, h5, h6, hc, hu, hl, ht] at h
                    rw [h]
                · simp [generateThumbFromFile, h1, h2, h3, h5, h6, hc, hu, hl] at h
                  rw [h]
              · simp [generateThumbFromFile, h1, h2, h3, h5, h6, hc, hu] at h
                rw [h]
          · simp [generateThumbFromFile, h1, h2, h3, h5, h6] at h
        · simp [generateThumbFromFile, h1, h2, h3, h5] at h
      · simp [generateThumbFromFile, h1, h2, h3] at h
    · cases re <;> simp [generateThumbFromFile, h1, h2] at h
  · simp [generateThumbFromFile, h1] at h

theorem runGen_out (env : Env) (p : ThumbParams) (out : List Nat)
    (h : (runGen env p).out = some out) : env.cmdOut = some out := by
  by_cases hm : p.FileExt = strL "mp4"
  · unfold runGen at h
    rw [if_pos hm] at h
    exact file_out env p out h
  · unfold runGen at h
    rw [if_neg hm] at h
    exact pipe_out env p out h

theorem runCmdAndUpload_nf_out (env : Env) (cmd : List Char × List (List Char))
    (e : ThumbError) (h : (runCmdAndUpload env cmd).err = some e)
    (hn : e.IsNotFound = true) : (runCmdAndUpload env cmd).out = none := by
  rcases hc : env.cmdOut with _ | o
  · simp [runCmdAndUpload, hc]
  · cases hu : env.uploadCopyErr
    · cases hl : env.uploadCloseErr
      · simp [runCmdAndUpload, hc, hu, hl] at h
      · simp [runCmdAndUpload, hc, hu, hl] at h
        subst h
        exact absurd hn (by decide)
    · simp [runCmdAndUpload, hc, hu] at h
      subst h
      exact absurd hn (by decide)

theorem pipe_nf_out (env : Env) (p : ThumbParams) (e : ThumbError)
    (h : (generateThumbFromPipe env p).err = some e) (hn : e.IsNotFound = true) :
    (generateThumbFromPipe env p).out = none := by
  cases h1 : env.newClientErr
  · rcases h2 : env.readerErr with _ | re
    · cases h3 : env.attrsErr
      · cases h4 : env.readAllErr
        · by_cases hmi : p.MediaType = MEDIA_IMAGE
          · rw [show generateThumbFromPipe env p = runCmdAndUpload env (vipsCmd p) from by
              simp [generateThumbFromPipe, h1, h2, h3, h4, hmi]] at h ⊢
            exact runCmdAndUpload_nf_out env _ e h hn
          · by_cases hmv : p.MediaType = MEDIA_VIDEO
            · have dvi : ¬ (MEDIA_VIDEO = MEDIA_IMAGE) := by decide
              rw [show generateThumbFromPipe env p = runCmdAndUpload env (videoPipeCmd p) from by
                simp [generateThumbFromPipe, h1, h2, h3, h4, hmv, dvi]] at h ⊢
              exact runCmdAndUpload_nf_out env _ e h hn
            · simp [generateThumbFromPipe, h1, h2, h3, h4, hmi, hmv]
        · simp [generateThumbFromPipe, h1, h2, h3, h4]
      · simp [generateThumbFromPipe, h1, h2, h3]
    · cases re <;> simp [generateThumbFromPipe, h1, h2]
  · simp [generateThumbFromPipe, h1]

theorem file_nf_out (env : Env) (p : ThumbParams) (e : ThumbError)
    (h : (generateThumbFromFile env p).err = some e) (hn : e.IsNotFound = true) :
    (generateThumbFromFile env p).out = none := by
  cases h1 : env.newClientErr
  · rcases h2 : env.readerErr with _ | re
    · cases h3 : env.attrsErr
      · cases h5 : env.createTempErr
        · cases h6 : env.copyTempErr
          · rcases hc : env.cmdOut with _ | o
            · simp [generateThumbFromFile, h1, h2, h3, h5, h6, hc]
            · cases hu : env.uploadCopyErr
              · cases hl : env.uploadCloseErr
                · cases ht : env.closeTempErr
                  · simp [generateThumbFromFile, h1, h2, h3, h5, h6, hc, hu, hl, ht] at h
                  · simp [generateThumbFromFile, h1, h2, h3, h5, h6, hc, hu, hl, ht] at h
                    subst h
                    exact absurd hn (by decide)
                · simp [generateThumbFromFile, h1, h2, h3, h5, h6, hc, hu, hl] at h
                  subst h
                  exact absurd hn (by decide)
              · simp [generateThumbFromFile, h1, h2, h3, h5, h6, hc, hu] at h
                subst h
                exact absurd hn (by decide)
          · simp [generateThumbFromFile, h1, h2, h3, h5, h6]
        · simp [generateThumbFromFile, h1, h2, h3, h5]
      · simp [generateThumbFromFile, h1, h2, h3]
    · cases re <;> simp [generateThumbFromFile, h1, h2]
  · simp [generateThumbFromFile, h1]

theorem runGen_nf_out (env : Env) (p : ThumbParams) (e : ThumbError)
    (h : (runGen env p).err = some e) (hn : e.IsNotFound = true) :
    (runGen env p).out = none := by
  by_cases hm : p.FileExt = strL "mp4"
  · unfold runGen at h ⊢
    rw [if_pos hm] at h ⊢
    exact file_nf_out env p e h hn
  · unfold runGen at h ⊢
    rw [if_neg hm] at h ⊢
    exact pipe_nf_out env p e h hn

theorem pipe_invoked (env : Env) (p : ThumbParams)
    (h1 : env.newClientErr = false) (h2 : env.readerErr = none)
    (h3 : env.attrsErr = false) (h4 : env.readAllErr = false) :
    (p.MediaType = MEDIA_IMAGE →
      (generateThumbFromPipe env p).invoked = some (vipsCmd p)) ∧
    (p.MediaType = MEDIA_VIDEO →
      (generateThumbFromPipe env p).invoked = some (videoPipeCmd p)) := by
  have hru : ∀ cmd, (runCmdAndUpload env cmd).invoked = some cmd := by
    intro cmd
    rcases hc : env.cmdOut with _ | o
    · simp [runCmdAndUpload, hc]
    · cases hu : env.uploadCopyErr
      · cases hl : env.uploadCloseErr <;> simp [runCmdAndUpload, hc, hu, hl]
      · simp [runCmdAndUpload, hc, hu]
  constructor
  · intro hm
    rw [show generateThumbFromPipe env p = runCmdAndUpload env (vipsCmd p) from by
      simp [generateThumbFromPipe, h1, h2, h3, h4, hm]]
    exact hru _
  · intro hm
    have dvi : ¬ (MEDIA_VIDEO = MEDIA_IMAGE) := by decide
    rw [show generateThumbFromPipe env p = runCmdAndUpload env (videoPipeCmd p) from by
      simp [generateThumbFromPipe, h1, h2, h3, h4, hm, dvi]]
    exact hru _

theorem file_invoked (env : Env) (p : ThumbParams)
    (h1 : env.newClientErr = false) (h2 : env.readerErr = none)
    (h3 : env.attrsErr = false) (h5 : env.createTempErr = false)
    (h6 : env.copyTempErr = false) :
    (generateThumbFromFile env p).invoked = some (videoFileCmd p env.tempName) := by
  rcases hc : env.cmdOut with _ | o
  · simp [generateThumbFromFile, h1, h2, h3, h5, h6, hc]
  · cases hu : env.uploadCopyErr
    · cases hl : env.uploadCloseErr
      · cases ht : env.closeTempErr <;>
          simp [generateThumbFromFile, h1, h2, h3, h5, h6, hc, hu, hl, ht]
      · simp [generateThumbFromFile, h1, h2, h3, h5, h6, hc, hu, hl]
    · simp [generateThumbFromFile, h1, h2, h3, h5, h6, hc, hu]

theorem runCmdAndUpload_fail (env : Env) (cmd : List Char × List (List Char))
    (out : List Nat) (hco : env.cmdOut = some out)
    (hu : env.uploadCopyErr = true ∨
          (env.uploadCopyErr = false ∧ env.uploadCloseErr = true)) :
    ∃ e, runCmdAndUpload env cmd = ⟨some out, some e, some cmd⟩ ∧
      e.IsNotFound = false := by
  rcases hu with hu | ⟨hu, hl⟩
  · exact ⟨⟨strL "Copy"⟩, by simp [runCmdAndUpload, hco, hu], by decide⟩
  · exact ⟨⟨strL "Close"⟩, by simp [runCmdAndUpload, hco, hu, hl], by decide⟩

theorem pipe_fail (env : Env) (p : ThumbParams) (out : List Nat)
    (h1 : env.newClientErr = false) (h2 : env.readerErr = none)
    (h3 : env.attrsErr = false) (h4 : env.readAllErr = false)
    (hco : env.cmdOut = some out)
    (hu : env.uploadCopyErr = true ∨
          (env.uploadCopyErr = false ∧ env.uploadCloseErr = true))
    (hm : p.MediaType = MEDIA_IMAGE ∨ p.MediaType = MEDIA_VIDEO) :
    ∃ e cmd, generateThumbFromPipe env p = ⟨some out, some e, some cmd⟩ ∧
      e.IsNotFound = false := by
  rcases hm with hm | hm
  · rcases runCmdAndUpload_fail env (vipsCmd p) out hco hu with ⟨e, he, hn⟩
    refine ⟨e, vipsCmd p, ?_, hn⟩
    rw [show generateThumbFromPipe env p = runCmdAndUpload env (vipsCmd p) from by
      simp [generateThumbFromPipe, h1, h2, h3, h4, hm]]
    exact he
  · rcases runCmdAndUpload_fail env (videoPipeCmd p) out hco hu with ⟨e, he, hn⟩
    refine ⟨e, videoPipeCmd p, ?_, hn⟩
    have dvi : ¬ (MEDIA_VIDEO = MEDIA_IMAGE) := by decide
    rw [show generateThumbFromPipe env p = runCmdAndUpload env (videoPipeCmd p) from by
      simp [generateThumbFromPipe, h1, h2, h3, h4, hm, dvi]]
    exact he

theorem file_fail (env : Env) (p : ThumbParams) (out : List Nat)
    (h1 : env.newClientErr = false) (h2 : env.readerErr = none)
    (h3 : env.attrsErr = false) (h5 : env.createTempErr = false)
    (h6 : env.copyTempErr = false) (hco : env.cmdOut = some out)
    (hu : env.uploadCopyErr = true ∨
          (env.uploadCopyErr = false ∧ env.uploadCloseErr = true)) :
    ∃ e, generateThumbFromFile env p =
        ⟨some out, some e, some (videoFileCmd p env.tempName)⟩ ∧
      e.IsNotFound = false := by
  rcases hu with hu | ⟨hu, hl⟩
  · exact ⟨⟨strL "Copy"⟩,
      by simp [generateThumbFromFile, h1, h2, h3, h5, h6, hco, hu], by decide⟩
  · exact ⟨⟨strL "Close"⟩,
      by simp [generateThumbFromFile, h1, h2, h3, h5, h6, hco, hu, hl], by decide⟩

theorem valid_media (path : List Char) (q : ThumbParams)
    (hq : paramExtract path = some q) (hv : paramValidate q = none) :
    q.MediaType = MEDIA_IMAGE ∨ q.MediaType = MEDIA_VIDEO := by
  have hm := extract_media path q hq
  by_cases hi : q.FileExt ∈ imageExts
  · left
    rw [hm]
    simp [classify, hi]
  · by_cases hvv : q.FileExt ∈ videoExts
    · right
      rw [hm]
      simp [classify, hi, hvv]
    · exfalso
      have hmu : q.MediaType = MEDIA_UNKNOWN := by
        rw [hm]
        simp [classify, hi, hvv]
      simp [paramValidate, hmu] at hv

/-- Claim C3 (confirmed): bytes are only ever returned when the tool produced
them, and when generation succeeds but the upload copy or the close of the
write fails, the orchestration still returns the generated bytes alongside the
error, and the handler still delivers them (status 200). -/
theorem C3_upload_failure_bytes (path : List Char) (q : ThumbParams) (env : Env)
    (hq : paramExtract path = some q) (hv : paramValidate q = none) :
    (∀ out, (runGen env q).out = some out → env.cmdOut = some out) ∧
    (env.newClientErr = false → env.readerErr = none → env.attrsErr = false →
     env.readAllErr = false → env.createTempErr = false → env.copyTempErr = false →
     ∀ out, env.cmdOut = some out →
     (env.uploadCopyErr = true ∨
      (env.uploadCopyErr = false ∧ env.uploadCloseErr = true)) →
     (runGen env q).out = some out ∧ (runGen env q).err.isSome = true ∧
       orchestrate env q = ⟨200, out⟩ ∧ thumbHandler env path = ⟨200, out⟩) := by
  constructor
  · intro out h
    exact runGen_out env q out h
  · intro h1 h2 h3 h4 h5 h6 out hco hu
    have hm := valid_media path q hq hv
    have hth : thumbHandler env path = orchestrate env q := by
      simp [thumbHandler, hq, hv]
    by_cases hm4 : q.FileExt = strL "mp4"
    · rcases file_fail env q out h1 h2 h3 h5 h6 hco hu with ⟨e, he, hnf⟩
      have hrg : runGen env q = ⟨some out, some e, some (videoFileCmd q env.tempName)⟩ := by
        unfold runGen
        rw [if_pos hm4]
        exact he
      refine ⟨by rw [hrg], by rw [hrg]; rfl, ?_, ?_⟩
      · simp [orchestrate, hrg, hnf]
      · rw [hth]
        simp [orchestrate, hrg, hnf]
    · rcases pipe_fail env q out h1 h2 h3 h4 hco hu hm with ⟨e, cmd, he, hnf⟩
      have hrg : runGen env q = ⟨some out, some e, some cmd⟩ := by
        unfold runGen
        rw [if_neg hm4]
        exact he
      refine ⟨by rw [hrg], by rw [hrg]; rfl, ?_, ?_⟩
      · simp [orchestrate, hrg, hnf]
      · rw [hth]
        simp [orchestrate, hrg, hnf]

/-- Claim C3, witness: with every step succeeding except the upload copy, the
parsed Cat.jpg request still yields the generated bytes with status 200. -/
theorem C3_upload_failure_bytes_witness :
    (runGen envUpCopy
      { Bucket := strL "mywiki", FileExt := strL "jpg",
        FilePath := strL "en/Cat.jpg", MediaType := MEDIA_IMAGE,
        ThumbExt := strL "jpg", ThumbPath := strL "en/thumb/Cat.jpg/100px-Cat.jpg",
        Width := strL "100" }).out = some [7, 7, 7] ∧
    (runGen envUpCopy
      { Bucket := strL "mywiki", FileExt := strL "jpg",
        FilePath := strL "en/Cat.jpg", MediaType := MEDIA_IMAGE,
        ThumbExt := strL "jpg", ThumbPath := strL "en/thumb/Cat.jpg/100px-Cat.jpg",
        Width := strL "100" }).err.isSome = true ∧
    orchestrate envUpCopy
      { Bucket := strL "mywiki", FileExt := strL "jpg",
        FilePath := strL "en/Cat.jpg", MediaType := MEDIA_IMAGE,
        ThumbExt := strL "jpg", ThumbPath := strL "en/thumb/Cat.jpg/100px-Cat.jpg",
        Width := strL "100" } = ⟨200, [7, 7, 7]⟩ ∧
    thumbHandler envUpCopy (strL "/mywiki/en/thumb/Cat.jpg/100px-Cat.jpg") =
      ⟨200, [7, 7, 7]⟩ :=
  (C3_upload_failure_bytes (strL "/mywiki/en/thumb/Cat.jpg/100px-Cat.jpg")
      { Bucket := strL "mywiki", FileExt := strL "jpg",
        FilePath := strL "en/Cat.jpg", MediaType := MEDIA_IMAGE,
        ThumbExt := strL "jpg", ThumbPath := strL "en/thumb/Cat.jpg/100px-Cat.jpg",
        Width := strL "100" } envUpCopy (by decide) (by decide)).2
    rfl rfl rfl rfl rfl rfl [7, 7, 7] rfl (Or.inl rfl)

/-- Claim C4 (corrected, amended): the handler responds 400 with an empty body
when parsing or validation fails, 404 with an empty body when the orchestration
reports the source absent, 500 with an empty body for any other orchestration
failure that produced no bytes; an orchestration failure that did produce bytes
(the upload stage) is answered 200 with those bytes, and a success is answered
200 with the produced bytes. -/
theorem C4_response_mapping (env : Env) (path : List Char) :
    (paramExtract path = none → thumbHandler env path = ⟨400, []⟩) ∧
    (∀ q, paramExtract path = some q →
      (paramValidate q ≠ none → thumbHandler env path = ⟨400, []⟩) ∧
      (paramValidate q = none →
        (∀ e, (runGen env q).err = some e →
          (e.IsNotFound = true → thumbHandler env path = ⟨404, []⟩) ∧
          (e.IsNotFound = false → (runGen env q).out = none →
            thumbHandler env path = ⟨500, []⟩) ∧
          (e.IsNotFound = false → ∀ o, (runGen env q).out = some o →
            thumbHandler env path = ⟨200, o⟩)) ∧
        ((runGen env q).err = none →
          thumbHandler env path = ⟨200, (runGen env q).out.getD []⟩))) := by
  constructor
  · intro h
    simp [thumbHandler, h]
  · intro q hq
    constructor
    · intro hv
      rcases hval : paramValidate q with _ | msg
      · exact absurd hval hv
      · simp [thumbHandler, hq, hval]
    · intro hv
      have hth : thumbHandler env path = orchestrate env q := by
        simp [thumbHandler, hq, hv]
      constructor
      · intro e he
        refine ⟨?_, ?_, ?_⟩
        · intro hnf
          have ho : (runGen env q).out = none := runGen_nf_out env q e he hnf
          rw [hth]
          simp [orchestrate, he, hnf, ho]
        · intro hnf hout
          rw [hth]
          simp [orchestrate, he, hnf, hout]
        · intro hnf o ho
          rw [hth]
          simp [orchestrate, he, hnf, ho]
      · intro he
        rw [hth]
        simp [orchestrate, he]

/-- Claim C4, witness: the mapping applied to the Cat.jpg request on the
all-success environment, giving the 200 response with the produced bytes. -/
theorem C4_response_mapping_witness :
    thumbHandler envOk (strL "/mywiki/en/thumb/Cat.jpg/100px-Cat.jpg") =
      ⟨200, [7, 7, 7]⟩ := by
  have h := ((C4_response_mapping envOk
      (strL "/mywiki/en/thumb/Cat.jpg/100px-Cat.jpg")).2
      { Bucket := strL "mywiki", FileExt := strL "jpg",
        FilePath := strL "en/Cat.jpg", MediaType := MEDIA_IMAGE,
        ThumbExt := strL "jpg", ThumbPath := strL "en/thumb/Cat.jpg/100px-Cat.jpg",
        Width := strL "100" } (by decide)).2 (by decide)
  exact (h.2 (by decide)).trans (by decide)

/-- Claim C4, counterexample: with only the upload copy failing, the
orchestration reports an error (`Copy`, not a not-found), yet the handler's
response is 200 with a non-empty body — not the claimed 500 with empty body. -/
theorem C4_upload_error_status_cex :
    (runGen envUpCopy
      { Bucket := strL "mywiki", FileExt := strL "jpg",
        FilePath := strL "en/Cat.jpg", MediaType := MEDIA_IMAGE,
        ThumbExt := strL "jpg", ThumbPath := strL "en/thumb/Cat.jpg/100px-Cat.jpg",
        Width := strL "100" }).err = some ⟨strL "Copy"⟩ ∧
    ThumbError.IsNotFound ⟨strL "Copy"⟩ = false ∧
    thumbHandler envUpCopy (strL "/mywiki/en/thumb/Cat.jpg/100px-Cat.jpg") =
      ⟨200, [7, 7, 7]⟩ := by
  refine ⟨?_, ?_, ?_⟩ <;> decide

/-- Claim C5 (confirmed): among validated requests, exactly the mp4 sources go
through the temp-file strategy (whose ffmpeg invocation receives the temp file
path as its input argument), and every other source — images and the remaining
video formats — goes through the pipe strategy (whose invocations read standard
input). -/
theorem C5_strategy_dispatch (path : List Char) (q : ThumbParams)
    (hq : paramExtract path = some q) (_hv : paramValidate q = none) :
    (q.FileExt = strL "mp4" →
      q.MediaType = MEDIA_VIDEO ∧
      (∀ env, runGen env q = generateThumbFromFile env q) ∧
      (∀ tmp, (videoFileCmd q tmp).2.take 4 =
        [strL "-f", q.FileExt, strL "-i", tmp])) ∧
    (q.FileExt ≠ strL "mp4" →
      (∀ env, runGen env q = generateThumbFromPipe env q) ∧
      (videoPipeCmd q).2.take 4 =
        [strL "-f", ogvRemap q.FileExt, strL "-i", strL "pipe:"]) := by
  constructor
  · intro hm
    refine ⟨?_, ?_, ?_⟩
    · have hmm := extract_media path q hq
      rw [hmm, hm]
      decide
    · intro env
      unfold runGen
      rw [if_pos hm]
    · intro tmp
      rfl
  · intro hm
    refine ⟨?_, rfl⟩
    intro env
    unfold runGen
    rw [if_neg hm]

/-- Claim C5, witness: the dispatch theorem applied to a parsed mp4 request,
showing the file strategy is taken. -/
theorem C5_strategy_dispatch_witness :
    runGen envOk
      { Bucket := strL "w", FileExt := strL "mp4", FilePath := strL "x/a.mp4",
        MediaType := MEDIA_VIDEO, ThumbExt := strL "jpg",
        ThumbPath := strL "x/thumb/a.mp4/10px-a.jpg", Width := strL "10" } =
    generateThumbFromFile envOk
      { Bucket := strL "w", FileExt := strL "mp4", FilePath := strL "x/a.mp4",
        MediaType := MEDIA_VIDEO, ThumbExt := strL "jpg",
        ThumbPath := strL "x/thumb/a.mp4/10px-a.jpg", Width := strL "10" } :=
  (((C5_strategy_dispatch (strL "/w/x/thumb/a.mp4/10px-a.jpg")
      { Bucket := strL "w", FileExt := strL "mp4", FilePath := strL "x/a.mp4",
        MediaType := MEDIA_VIDEO, ThumbExt := strL "jpg",
        ThumbPath := strL "x/thumb/a.mp4/10px-a.jpg", Width := strL "10" }
      (by decide) (by decide)).1 (by decide)).2.1) envOk

/-- Claim C6 (confirmed): for every validated video request, the invocation
performed by the chosen strategy is ffmpeg with an input-format argument equal
to the source extension except that ogv is remapped to ogg, with single-frame
extraction, audio disabled, and the scale filter exactly `scale=<width>:-1`. -/
theorem C6_ffmpeg_invocation (path : List Char) (q : ThumbParams) (env : Env)
    (_hq : paramExtract path = some q) (_hv : paramValidate q = none)
    (hmv : q.MediaType = MEDIA_VIDEO)
    (h1 : env.newClientErr = false) (h2 : env.readerErr = none)
    (h3 : env.attrsErr = false) (h4 : env.readAllErr = false)
    (h5 : env.createTempErr = false) (h6 : env.copyTempErr = false) :
    ∃ args, (runGen env q).invoked = some (strL "ffmpeg", args) ∧
      args.take 2 = [strL "-f", ogvRemap q.FileExt] ∧
      isSub [strL "-vframes", strL "1"] args = true ∧
      isSub [strL "-an"] args = true ∧
      isSub [strL "-vf", strL "scale=" ++ q.Width ++ strL ":-1"] args = true := by
  by_cases hm4 : q.FileExt = strL "mp4"
  · refine ⟨ffmpegArgs q.FileExt env.tempName q.Width, ?_, ?_, ?_, ?_, ?_⟩
    · unfold runGen
      rw [if_pos hm4]
      exact file_invoked env q h1 h2 h3 h5 h6
    · rw [hm4]
      rfl
    · apply isSub_of_split _ _ [strL "-f", q.FileExt, strL "-i", env.tempName]
        [strL "-an", strL "-f", strL "image2pipe", strL "-vf",
         strL "scale=" ++ q.Width ++ strL ":-1", strL "-qscale:v", strL "1",
         strL "-qmin", strL "1", strL "-qmax", strL "1", strL "-nostats",
         strL "-loglevel", strL "fatal", strL "pipe:1"]
      rfl
    · apply isSub_of_split _ _
        [strL "-f", q.FileExt, strL "-i", env.tempName, strL "-vframes", strL "1"]
        [strL "-f", strL "image2pipe", strL "-vf",
         strL "scale=" ++ q.Width ++ strL ":-1", strL "-qscale:v", strL "1",
         strL "-qmin", strL "1", strL "-qmax", strL "1", strL "-nostats",
         strL "-loglevel", strL "fatal", strL "pipe:1"]
      rfl
    · apply isSub_of_split _ _
        [strL "-f", q.FileExt, strL "-i", env.tempName, strL "-vframes", strL "1",
         strL "-an", strL "-f", strL "image2pipe"]
        [strL "-qscale:v", strL "1", strL "-qmin", strL "1", strL "-qmax", strL "1",
         strL "-nostats", strL "-loglevel", strL "fatal", strL "pipe:1"]
      rfl
  · refine ⟨ffmpegArgs (ogvRemap q.FileExt) (strL "pipe:") q.Width, ?_, ?_, ?_, ?_, ?_⟩
    · unfold runGen
      rw [if_neg hm4]
      exact (pipe_invoked env q h1 h2 h3 h4).2 hmv
    · rfl
    · apply isSub_of_split _ _
        [strL "-f", ogvRemap q.FileExt, strL "-i", strL "pipe:"]
        [strL "-an", strL "-f", strL "image2pipe", strL "-vf",
         strL "scale=" ++ q.Width ++ strL ":-1", strL "-qscale:v", strL "1",
         strL "-qmin", strL "1", strL "-qmax", strL "1", strL "-nostats",
         strL "-loglevel", strL "fatal", strL "pipe:1"]
      rfl
    · apply isSub_of_split _ _
        [strL "-f", ogvRemap q.FileExt, strL "-i", strL "pipe:",
         strL "-vframes", strL "1"]
        [strL "-f", strL "image2pipe", strL "-vf",
         strL "scale=" ++ q.Width ++ strL ":-1", strL "-qscale:v", strL "1",
         strL "-qmin", strL "1", strL "-qmax", strL "1", strL "-nostats",
         strL "-loglevel", strL "fatal", strL "pipe:1"]
      rfl
    · apply isSub_of_split _ _
        [strL "-f", ogvRemap q.FileExt, strL "-i", strL "pipe:",
         strL "-vframes", strL "1", strL "-an", strL "-f", strL "image2pipe"]
        [strL "-qscale:v", strL "1", strL "-qmin", strL "1", strL "-qmax", strL "1",
         strL "-nostats", strL "-loglevel", strL "fatal", strL "pipe:1"]
      rfl

/-- Claim C6, witness: the invocation theorem applied to the parsed
`/mywiki/en/thumb/Movie.webm/320px-seek.jpg` request on the all-success
environment. -/
theorem C6_ffmpeg_invocation_witness :
    ∃ args, (runGen envOk
      { Bucket := strL "mywiki", FileExt := strL "webm",
        FilePath := strL "en/Movie.webm", MediaType := MEDIA_VIDEO,
        ThumbExt := strL "jpg",
        ThumbPath := strL "en/thumb/Movie.webm/320px-seek.jpg",
        Width := strL "320" }).invoked = some (strL "ffmpeg", args) ∧
      args.take 2 = [strL "-f",
        ogvRemap (ThumbParams.FileExt
          { Bucket := strL "mywiki", FileExt := strL "webm",
            FilePath := strL "en/Movie.webm", MediaType := MEDIA_VIDEO,
            ThumbExt := strL "jpg",
            ThumbPath := strL "en/thumb/Movie.webm/320px-seek.jpg",
            Width := strL "320" })] ∧
      isSub [strL "-vframes", strL "1"] args = true ∧
      isSub [strL "-an"] args = true ∧
      isSub [strL "-vf", strL "scale=" ++ strL "320" ++ strL ":-1"] args = true :=
  C6_ffmpeg_invocation (strL "/mywiki/en/thumb/Movie.webm/320px-seek.jpg")
    { Bucket := strL "mywiki", FileExt := strL "webm",
      FilePath := strL "en/Movie.webm", MediaType := MEDIA_VIDEO,
      ThumbExt := strL "jpg",
      ThumbPath := strL "en/thumb/Movie.webm/320px-seek.jpg",
      Width := strL "320" } envOk (by decide) (by decide) (by decide)
    rfl rfl rfl rfl rfl rfl
